import Mathlib

/-!
Shallow embedding of the chat frontend in `frontend/src/App.tsx`.

The component state (React `useState` hooks) becomes an explicit record
`AppState`; each event handler becomes a pure state-transition function.
An asynchronous request is modelled by passing the server outcome as an
explicit parameter, and each handler returns, besides the new state, the
request it issued (`none` when no request was sent).  Values produced by
`Date.now()` / `new Date().toISOString()` are environment inputs and are
passed in as string parameters, one per call site.
-/

namespace RagChat

/-- Role of a chat message, `role: 'user' | 'assistant'` in `App.tsx`. -/
inductive Role where
  | user
  | assistant
deriving DecidableEq, Repr

/-- `interface SourceDocument` from `App.tsx`.  The JS `number` fields are
only carried around, never computed with, and are embedded as `Rat` and
`Nat` respectively. -/
structure SourceDocument where
  content : String
  filename : String
  page : Option Nat
  relevance_score : Rat
deriving DecidableEq, Repr

/-- `interface Message` from `App.tsx`; the optional `sources?` field is an
`Option` so that an absent list and an empty list stay distinguishable. -/
structure Message where
  id : String
  role : Role
  content : String
  timestamp : String
  sources : Option (List SourceDocument)
deriving DecidableEq, Repr

/-- `interface UploadedFile` from `App.tsx`. -/
structure UploadedFile where
  file_id : String
  filename : String
  chunks_created : Nat
  uploaded_at : String
deriving DecidableEq, Repr

/-- Kind of a notification banner, `'success' | 'error'`. -/
inductive NotifType where
  | success
  | error
deriving DecidableEq, Repr

/-- The `notification` state value of `App.tsx`. -/
structure Notification where
  type : NotifType
  message : String
deriving DecidableEq, Repr

/-- The component state of `App`: one field per `useState` hook, plus the
value of the hidden file input (`fileInputRef.current.value`). -/
structure AppState where
  messages : List Message
  input : String
  loading : Bool
  sessionId : String
  uploadedFiles : List UploadedFile
  uploading : Bool
  notification : Option Notification
  useRag : Bool
  fileInputValue : String
deriving DecidableEq, Repr

/-- Initial component state; `t0` is the `Date.now()` value rendered into
the session id (`session_${Date.now()}`). -/
def initialState (t0 : String) : AppState :=
  { messages := []
    input := ""
    loading := false
    sessionId := "session_" ++ t0
    uploadedFiles := []
    uploading := false
    notification := none
    useRag := true
    fileInputValue := "" }

/-- The body of the POST to `/api/chat`. -/
structure ChatRequest where
  message : String
  session_id : String
  use_rag : Bool
deriving DecidableEq, Repr

/-- Outcome of the chat request: `success` carries `response.data.response`,
`response.data.timestamp` and `response.data.sources` (absent when the
server sent none); `failure` carries `error.response?.data?.detail`. -/
inductive ChatOutcome where
  | success (response : String) (timestamp : String)
      (sources : Option (List SourceDocument))
  | failure (detail : Option String)
deriving DecidableEq, Repr

/-- JS whitespace for `String.prototype.trim` (space, tab, newline,
carriage return, plus the rarer JS white-space code points, which never
occur in the strings the component compares). -/
def jsIsWhitespace (c : Char) : Bool :=
  c = ' ' || c = '\t' || c = '\n' || c = '\r' ||
  c = '\x0b' || c = '\x0c' || c = ' ' || c = '﻿'

/-- JS `String.prototype.trim`, over the character list. -/
def jsTrim (s : String) : String :=
  String.mk (((s.toList.dropWhile jsIsWhitespace).reverse.dropWhile
    jsIsWhitespace).reverse)

/-- JS `String.prototype.toLowerCase` (ASCII range, which covers the file
extensions the component compares), over the character list. -/
def jsToLower (s : String) : String :=
  String.mk (s.toList.map Char.toLower)

/-- The user `Message` literal built at the top of `handleSendMessage`:
id `msg_${Date.now()}`, fresh ISO timestamp, no `sources` field. -/
def userMessageOf (t1 iso1 content : String) : Message :=
  { id := "msg_" ++ t1
    role := Role.user
    content := content
    timestamp := iso1
    sources := none }

/-- The assistant `Message` built on a successful chat response: content and
timestamp from the response, `sources: response.data.sources || []`. -/
def assistantMessageOf (t2 response timestamp : String)
    (sources : Option (List SourceDocument)) : Message :=
  { id := "msg_" ++ t2 ++ "_assistant"
    role := Role.assistant
    content := response
    timestamp := timestamp
    sources := some (sources.getD []) }

/-- The assistant `Message` built in the catch branch of
`handleSendMessage` (fixed apologetic content, fresh timestamp). -/
def errorMessageOf (t2 iso2 : String) : Message :=
  { id := "msg_" ++ t2 ++ "_error"
    role := Role.assistant
    content := "❌ Sorry, I encountered an error. Please try again."
    timestamp := iso2
    sources := none }

/-- `handleSendMessage` from `App.tsx`, the whole async call collapsed into
one transition.  `t1`/`iso1` are the `Date.now()` and ISO-timestamp values
at entry, `t2`/`iso2` the ones at response time.  Returns the new state and
the request that was posted (`none` when the guard returned early). -/
def handleSendMessage (s : AppState) (t1 iso1 t2 iso2 : String)
    (outcome : ChatOutcome) : AppState × Option ChatRequest :=
  if jsTrim s.input == "" || s.loading then (s, none)
  else
    let userMessage := userMessageOf t1 iso1 s.input
    let req : ChatRequest :=
      { message := s.input, session_id := s.sessionId, use_rag := s.useRag }
    match outcome with
    | ChatOutcome.success response timestamp sources =>
        let assistantMessage := assistantMessageOf t2 response timestamp sources
        ({ s with
            messages := s.messages ++ [userMessage, assistantMessage]
            input := ""
            loading := false }, some req)
    | ChatOutcome.failure detail =>
        let errorMessage := errorMessageOf t2 iso2
        ({ s with
            messages := s.messages ++ [userMessage, errorMessage]
            input := ""
            loading := false
            notification := some
              { type := NotifType.error
                message := detail.getD "Failed to send message" } }, some req)

/-- A selected file, `event.target.files?.[0]`. -/
structure FileInfo where
  name : String
deriving DecidableEq, Repr

/-- `const allowedTypes = ['.pdf', '.txt', '.docx', '.pptx', '.xlsx']`. -/
def allowedTypes : List String := [".pdf", ".txt", ".docx", ".pptx", ".xlsx"]

/-- JS `String.prototype.lastIndexOf` for a single character: the index of
its last occurrence, `-1` when absent. -/
def jsLastIndexOf (s : String) (c : Char) : Int :=
  match List.findIdx? (fun x => x = c) s.toList.reverse with
  | none => -1
  | some i => Int.ofNat (s.toList.length - 1 - i)

/-- JS `String.prototype.substring(start)`: a negative start is clamped
to 0. -/
def jsSubstringFrom (s : String) (i : Int) : String :=
  String.mk (s.toList.drop i.toNat)

/-- `file.name.substring(file.name.lastIndexOf('.')).toLowerCase()`. -/
def fileExtOf (name : String) : String :=
  jsToLower (jsSubstringFrom name (jsLastIndexOf name '.'))

/-- Outcome of the upload request: `success` carries `file_id`, `filename`
and `chunks_created` from `response.data`; `failure` carries
`error.response?.data?.detail`. -/
inductive UploadOutcome where
  | success (file_id : String) (filename : String) (chunks_created : Nat)
  | failure (detail : Option String)
deriving DecidableEq, Repr

/-- `handleFileUpload` from `App.tsx`, the async call collapsed into one
transition.  `nowIso` is the `new Date().toISOString()` value used for
`uploaded_at`.  Returns the new state and the file that was posted to
`/api/upload` (`none` when no request was issued). -/
def handleFileUpload (s : AppState) (file : Option FileInfo) (nowIso : String)
    (outcome : UploadOutcome) : AppState × Option FileInfo :=
  match file with
  | none => (s, none)
  | some f =>
    let fileExt := fileExtOf f.name
    if !(allowedTypes.contains fileExt) then
      ({ s with
          notification := some
            { type := NotifType.error
              message := "Unsupported file type. Allowed: " ++
                String.intercalate ", " allowedTypes } }, none)
    else
      match outcome with
      | UploadOutcome.success fid fn cc =>
          ({ s with
              uploadedFiles := s.uploadedFiles ++
                [{ file_id := fid
                   filename := fn
                   chunks_created := cc
                   uploaded_at := nowIso }]
              notification := some
                { type := NotifType.success
                  message := f.name ++ " uploaded successfully! " ++
                    toString cc ++ " chunks created." }
              uploading := false
              fileInputValue := "" }, some f)
      | UploadOutcome.failure detail =>
          ({ s with
              notification := some
                { type := NotifType.error
                  message := detail.getD "Upload failed" }
              uploading := false
              fileInputValue := "" }, some f)

/-- `handleClearChat` from `App.tsx`; `confirmed` is the result of
`window.confirm`. -/
def handleClearChat (s : AppState) (confirmed : Bool) : AppState :=
  if confirmed then
    { s with
        messages := []
        notification := some
          { type := NotifType.success, message := "Chat cleared" } }
  else s

/-- The send button's `disabled={loading || !input.trim()}` condition. -/
def sendButtonDisabled (s : AppState) : Bool :=
  s.loading || jsTrim s.input == ""

/-- Whether the sources block is rendered for a message:
`message.sources && message.sources.length > 0`. -/
def renderSources (m : Message) : Bool :=
  match m.sources with
  | none => false
  | some l => !l.isEmpty

/-- One user-interface event, as a transition between component states:
a send (with its environment inputs and server outcome), a file upload,
a clear, editing the input box, or toggling the RAG switch. -/
inductive Step : AppState → AppState → Prop where
  | send (s : AppState) (t1 iso1 t2 iso2 : String) (o : ChatOutcome) :
      Step s (handleSendMessage s t1 iso1 t2 iso2 o).1
  | upload (s : AppState) (file : Option FileInfo) (nowIso : String)
      (o : UploadOutcome) :
      Step s (handleFileUpload s file nowIso o).1
  | clear (s : AppState) (confirmed : Bool) :
      Step s (handleClearChat s confirmed)
  | setInput (s : AppState) (v : String) :
      Step s { s with input := v }
  | toggleRag (s : AppState) :
      Step s { s with useRag := !s.useRag }

/-- States reachable from the initial state by user-interface events. -/
inductive Reachable (t0 : String) : AppState → Prop where
  | init : Reachable t0 (initialState t0)
  | step {s s' : AppState} : Reachable t0 s → Step s s' → Reachable t0 s'

/-- The early-return guard of `handleSendMessage` is false when the input
has a non-whitespace character and no send is in flight. -/
theorem sendGuard_eq_false {s : AppState} (hin : jsTrim s.input ≠ "")
    (hld : s.loading = false) :
    (jsTrim s.input == "" || s.loading) = false := by
  simp [hld, beq_eq_false_iff_ne, hin]

/-- C9: with empty-after-trim input or a send already in flight,
`handleSendMessage` issues no request and changes nothing, and the send
button is disabled under exactly those conditions. -/
theorem send_noop_when_disabled (s : AppState) (t1 iso1 t2 iso2 : String)
    (o : ChatOutcome) (h : jsTrim s.input = "" ∨ s.loading = true) :
    handleSendMessage s t1 iso1 t2 iso2 o = (s, none) ∧
    sendButtonDisabled s = true := by
  have hg : (jsTrim s.input == "" || s.loading) = true := by
    rcases h with h | h <;> simp [h]
  constructor
  · simp [handleSendMessage, hg]
  · rcases h with h | h <;> simp [sendButtonDisabled, h]

/-- Witness for C9: the initial state has empty input, so invoking send
there is a no-op and the button is disabled. -/
theorem send_noop_when_disabled_witness :
    handleSendMessage (initialState "0") "1" "a" "2" "b"
        (ChatOutcome.success "hi" "c" none) = (initialState "0", none) ∧
    sendButtonDisabled (initialState "0") = true :=
  send_noop_when_disabled (initialState "0") "1" "a" "2" "b"
    (ChatOutcome.success "hi" "c" none) (Or.inl (by decide))

/-- C1: a successful send posts the typed text and appends exactly the
user turn (content = the text sent) and then the assistant turn (content,
timestamp and sources from the response); a second successful send on the
same state then yields user, assistant, user, assistant in call order,
with the earlier messages unchanged. -/
theorem chat_success_appends_user_then_assistant
    (s : AppState) (t1 iso1 t2 iso2 resp ts : String)
    (srcs : Option (List SourceDocument))
    (q2 u1 v1 u2 v2 resp' ts' : String)
    (srcs' : Option (List SourceDocument))
    (hin : jsTrim s.input ≠ "") (hld : s.loading = false)
    (hq2 : jsTrim q2 ≠ "") :
    (handleSendMessage s t1 iso1 t2 iso2
        (ChatOutcome.success resp ts srcs)).2 =
      some { message := s.input, session_id := s.sessionId
             use_rag := s.useRag } ∧
    (handleSendMessage s t1 iso1 t2 iso2
        (ChatOutcome.success resp ts srcs)).1.messages =
      s.messages ++ [userMessageOf t1 iso1 s.input,
                     assistantMessageOf t2 resp ts srcs] ∧
    (handleSendMessage
        { (handleSendMessage s t1 iso1 t2 iso2
            (ChatOutcome.success resp ts srcs)).1 with input := q2 }
        u1 v1 u2 v2 (ChatOutcome.success resp' ts' srcs')).1.messages =
      s.messages ++ [userMessageOf t1 iso1 s.input,
                     assistantMessageOf t2 resp ts srcs,
                     userMessageOf u1 v1 q2,
                     assistantMessageOf u2 resp' ts' srcs'] := by
  have hg := sendGuard_eq_false hin hld
  have hg2 : (jsTrim q2 == "") = false := beq_eq_false_iff_ne.mpr hq2
  refine ⟨?_, ?_, ?_⟩ <;> simp [handleSendMessage, hg, hg2]

/-- Witness for C1: two sends of "hello" then "and you?" from a fresh
session produce the four expected turns. -/
theorem chat_success_appends_user_then_assistant_witness :
    (handleSendMessage
        { (handleSendMessage { initialState "0" with input := "hello" }
            "1" "a" "2" "b" (ChatOutcome.success "hi" "c" none)).1
          with input := "and you?" }
        "3" "d" "4" "e" (ChatOutcome.success "fine" "f" none)).1.messages =
      [userMessageOf "1" "a" "hello",
       assistantMessageOf "2" "hi" "c" none,
       userMessageOf "3" "d" "and you?",
       assistantMessageOf "4" "fine" "f" none] := by
  have h := chat_success_appends_user_then_assistant
    { initialState "0" with input := "hello" } "1" "a" "2" "b" "hi" "c" none
    "and you?" "3" "d" "4" "e" "fine" "f" none
    (by decide) (by decide) (by decide)
  exact h.2.2.trans (by decide)

/-- C2 counterexample: with a failing chat request carrying no detail, the
transcript does gain a fabricated assistant answer (fixed apologetic text)
and the notification falls back to the generic "Failed to send message",
contradicting the claim that no canned answer is substituted. -/
theorem chat_failure_counterexample :
    (handleSendMessage { initialState "0" with input := "hi" }
        "1" "a" "2" "b" (ChatOutcome.failure none)).1.messages.map
        (fun m => (m.role, m.content)) =
      [(Role.user, "hi"),
       (Role.assistant,
        "❌ Sorry, I encountered an error. Please try again.")] ∧
    (handleSendMessage { initialState "0" with input := "hi" }
        "1" "a" "2" "b" (ChatOutcome.failure none)).1.notification =
      some { type := NotifType.error
             message := "Failed to send message" } := by
  decide

/-- C2 (amended): on a failed chat request an error notification is shown
carrying the server detail when present and the generic text otherwise,
and the transcript gains the user turn followed by an assistant turn with
the fixed apologetic error content. -/
theorem chat_failure_behavior (s : AppState) (t1 iso1 t2 iso2 : String)
    (detail : Option String)
    (hin : jsTrim s.input ≠ "") (hld : s.loading = false) :
    (handleSendMessage s t1 iso1 t2 iso2
        (ChatOutcome.failure detail)).1.messages =
      s.messages ++ [userMessageOf t1 iso1 s.input,
                     errorMessageOf t2 iso2] ∧
    (handleSendMessage s t1 iso1 t2 iso2
        (ChatOutcome.failure detail)).1.notification =
      some { type := NotifType.error
             message := detail.getD "Failed to send message" } := by
  have hg := sendGuard_eq_false hin hld
  constructor <;> simp [handleSendMessage, hg]

/-- Witness for the amended C2: a failing send with a server detail shows
that detail and appends the fixed error turn. -/
theorem chat_failure_behavior_witness :
    (handleSendMessage { initialState "0" with input := "hi" }
        "1" "a" "2" "b"
        (ChatOutcome.failure (some "model unavailable"))).1.messages =
      [userMessageOf "1" "a" "hi", errorMessageOf "2" "b"] ∧
    (handleSendMessage { initialState "0" with input := "hi" }
        "1" "a" "2" "b"
        (ChatOutcome.failure (some "model unavailable"))).1.notification =
      some { type := NotifType.error, message := "model unavailable" } := by
  have h := chat_failure_behavior { initialState "0" with input := "hi" }
    "1" "a" "2" "b" (some "model unavailable") (by decide) (by decide)
  exact ⟨h.1.trans (by decide), h.2.trans (by decide)⟩

/-- C8: sending the same non-empty text twice is not deduplicated: the
transcript gains two distinct user turns with that text (each with its own
assistant turn), and the count of user turns carrying the text rises by
two. -/
theorem duplicate_sends_not_collapsed
    (s : AppState) (q t1 iso1 t2 iso2 resp ts u1 v1 u2 v2 resp' ts' : String)
    (srcs srcs' : Option (List SourceDocument))
    (hq : jsTrim q ≠ "") (hld : s.loading = false) (hinp : s.input = q) :
    (handleSendMessage
        { (handleSendMessage s t1 iso1 t2 iso2
            (ChatOutcome.success resp ts srcs)).1 with input := q }
        u1 v1 u2 v2 (ChatOutcome.success resp' ts' srcs')).1.messages =
      s.messages ++ [userMessageOf t1 iso1 q,
                     assistantMessageOf t2 resp ts srcs,
                     userMessageOf u1 v1 q,
                     assistantMessageOf u2 resp' ts' srcs'] ∧
    ((handleSendMessage
        { (handleSendMessage s t1 iso1 t2 iso2
            (ChatOutcome.success resp ts srcs)).1 with input := q }
        u1 v1 u2 v2 (ChatOutcome.success resp' ts' srcs')).1.messages.countP
        (fun m => decide (m.role = Role.user ∧ m.content = q))) =
      (s.messages.countP
        (fun m => decide (m.role = Role.user ∧ m.content = q))) + 2 := by
  have hg : (jsTrim s.input == "") = false := by
    rw [hinp]; exact beq_eq_false_iff_ne.mpr hq
  have hg2 : (jsTrim q == "") = false := beq_eq_false_iff_ne.mpr hq
  have hmain :
      (handleSendMessage
        { (handleSendMessage s t1 iso1 t2 iso2
            (ChatOutcome.success resp ts srcs)).1 with input := q }
        u1 v1 u2 v2 (ChatOutcome.success resp' ts' srcs')).1.messages =
      s.messages ++ [userMessageOf t1 iso1 q,
                     assistantMessageOf t2 resp ts srcs,
                     userMessageOf u1 v1 q,
                     assistantMessageOf u2 resp' ts' srcs'] := by
    simp [handleSendMessage, hg, hg2, hld, hinp]
  refine ⟨hmain, ?_⟩
  rw [hmain]
  simp [List.countP_append, userMessageOf, assistantMessageOf,
    List.countP_cons, List.countP_nil]

/-- Witness for C8: sending "same" twice yields two user turns with that
content. -/
theorem duplicate_sends_not_collapsed_witness :
    (handleSendMessage
        { (handleSendMessage { initialState "0" with input := "same" }
            "1" "a" "2" "b" (ChatOutcome.success "r1" "c" none)).1
          with input := "same" }
        "3" "d" "4" "e" (ChatOutcome.success "r2" "f" none)).1.messages =
      [userMessageOf "1" "a" "same",
       assistantMessageOf "2" "r1" "c" none,
       userMessageOf "3" "d" "same",
       assistantMessageOf "4" "r2" "f" none] := by
  have h := duplicate_sends_not_collapsed
    { initialState "0" with input := "same" } "same"
    "1" "a" "2" "b" "r1" "c" "3" "d" "4" "e" "r2" "f" none none
    (by decide) (by decide) (by decide)
  exact h.1.trans (by decide)

/-- C3: a file whose computed extension (the lowercased suffix from the
last dot) is outside the allowed set is rejected with an error
notification, no request, and an otherwise unchanged state — in particular
the uploaded-files list; a file whose extension is in the set has an
upload request issued for it. -/
theorem upload_extension_validation (s : AppState) (f : FileInfo)
    (nowIso : String) (o : UploadOutcome) :
    (allowedTypes.contains (fileExtOf f.name) = false →
      handleFileUpload s (some f) nowIso o =
        ({ s with notification := some {
            type := NotifType.error,
            message := "Unsupported file type. Allowed: " ++
              String.intercalate ", " allowedTypes } }, none)) ∧
    (allowedTypes.contains (fileExtOf f.name) = true →
      (handleFileUpload s (some f) nowIso o).2 = some f) := by
  constructor
  · intro hext
    have hmem : fileExtOf f.name ∉ allowedTypes := by simpa using hext
    simp [handleFileUpload, hmem]
  · intro hext
    have hmem : fileExtOf f.name ∈ allowedTypes := by simpa using hext
    cases o <;> simp [handleFileUpload, hmem]

/-- Witness for C3: "virus.exe" is rejected ("exe" is not in the allowed
set) leaving the file list unchanged, while "report.PDF" (case-insensitive
match of ".pdf") is posted. -/
theorem upload_extension_validation_witness :
    handleFileUpload (initialState "0") (some { name := "virus.exe" }) "t"
        (UploadOutcome.success "id1" "virus.exe" 3) =
      ({ initialState "0" with notification := some {
          type := NotifType.error,
          message :=
            "Unsupported file type. Allowed: .pdf, .txt, .docx, .pptx, .xlsx" } },
       none) ∧
    (handleFileUpload (initialState "0") (some { name := "report.PDF" }) "t"
        (UploadOutcome.success "id2" "report.PDF" 3)).2 =
      some { name := "report.PDF" } := by
  constructor
  · have h := (upload_extension_validation (initialState "0")
      { name := "virus.exe" } "t"
      (UploadOutcome.success "id1" "virus.exe" 3)).1 (by decide)
    exact h.trans (by decide)
  · exact (upload_extension_validation (initialState "0")
      { name := "report.PDF" } "t"
      (UploadOutcome.success "id2" "report.PDF" 3)).2 (by decide)

/-- C4: a successful response without a sources list yields an assistant
turn whose sources field is the empty list (present, not absent) and no
rendered sources block; in general the block is rendered for an assistant
turn built from a response exactly when its citation list is non-empty. -/
theorem sources_default_empty_and_render
    (s : AppState) (t1 iso1 t2 iso2 resp ts : String)
    (hin : jsTrim s.input ≠ "") (hld : s.loading = false) :
    (handleSendMessage s t1 iso1 t2 iso2
        (ChatOutcome.success resp ts none)).1.messages =
      s.messages ++ [userMessageOf t1 iso1 s.input,
                     assistantMessageOf t2 resp ts none] ∧
    (assistantMessageOf t2 resp ts none).sources = some [] ∧
    renderSources (assistantMessageOf t2 resp ts none) = false ∧
    (∀ srcs : Option (List SourceDocument),
      renderSources (assistantMessageOf t2 resp ts srcs) =
        !(srcs.getD []).isEmpty) := by
  have hg := sendGuard_eq_false hin hld
  refine ⟨by simp [handleSendMessage, hg], rfl, rfl, ?_⟩
  intro srcs
  simp [renderSources, assistantMessageOf]

/-- Witness for C4: a concrete sourceless reply records `some []` and
renders no block, while a one-citation reply renders one. -/
theorem sources_default_empty_and_render_witness :
    (handleSendMessage { initialState "0" with input := "hello" }
        "1" "a" "2" "b" (ChatOutcome.success "hi" "c" none)).1.messages =
      [userMessageOf "1" "a" "hello", assistantMessageOf "2" "hi" "c" none] ∧
    (assistantMessageOf "2" "hi" "c" none).sources = some [] ∧
    renderSources (assistantMessageOf "2" "hi" "c" none) = false ∧
    renderSources (assistantMessageOf "2" "hi" "c"
      (some [{ content := "x", filename := "d.pdf", page := some 1,
               relevance_score := 1 }])) = true := by
  have h := sources_default_empty_and_render
    { initialState "0" with input := "hello" } "1" "a" "2" "b" "hi" "c"
    (by decide) (by decide)
  exact ⟨h.1.trans (by decide), h.2.1, h.2.2.1,
    (h.2.2.2 (some [{ content := "x", filename := "d.pdf",
                      page := some 1, relevance_score := 1 }])).trans
      (by decide)⟩

/-- C5: a successful upload appends exactly one entry built from the
response fields (file id, filename, chunk count) to the uploaded-files
list, leaving earlier entries in place, and shows a success notification
reporting the chunk count. -/
theorem upload_success_appends_entry (s : AppState) (f : FileInfo)
    (nowIso fid fn : String) (cc : Nat)
    (hext : allowedTypes.contains (fileExtOf f.name) = true) :
    (handleFileUpload s (some f) nowIso
        (UploadOutcome.success fid fn cc)).1.uploadedFiles =
      s.uploadedFiles ++
        [{ file_id := fid, filename := fn, chunks_created := cc,
           uploaded_at := nowIso }] ∧
    (handleFileUpload s (some f) nowIso
        (UploadOutcome.success fid fn cc)).1.notification =
      some { type := NotifType.success
             message := f.name ++ " uploaded successfully! " ++
               toString cc ++ " chunks created." } := by
  have hmem : fileExtOf f.name ∈ allowedTypes := by simpa using hext
  constructor <;> simp [handleFileUpload, hmem]

/-- Witness for C5: uploading "notes.txt" successfully appends its entry
and reports the 4 chunks created. -/
theorem upload_success_appends_entry_witness :
    (handleFileUpload (initialState "0") (some { name := "notes.txt" }) "t"
        (UploadOutcome.success "id7" "notes.txt" 4)).1.uploadedFiles =
      [{ file_id := "id7", filename := "notes.txt", chunks_created := 4,
         uploaded_at := "t" }] ∧
    (handleFileUpload (initialState "0") (some { name := "notes.txt" }) "t"
        (UploadOutcome.success "id7" "notes.txt" 4)).1.notification =
      some { type := NotifType.success
             message := "notes.txt uploaded successfully! 4 chunks created." } := by
  have h := upload_success_appends_entry (initialState "0")
    { name := "notes.txt" } "t" "id7" "notes.txt" 4 (by decide)
  exact ⟨h.1.trans (by decide), h.2.trans (by decide)⟩

/-- C10: a failed upload request leaves the uploaded-files list exactly as
before and shows an error notification (the server detail when present,
otherwise "Upload failed"), and in both the failure and the success
outcome the file input value is reset to the empty string. -/
theorem upload_failure_atomic (s : AppState) (f : FileInfo)
    (nowIso fid fn : String) (cc : Nat) (detail : Option String)
    (hext : allowedTypes.contains (fileExtOf f.name) = true) :
    (handleFileUpload s (some f) nowIso
        (UploadOutcome.failure detail)).1.uploadedFiles =
      s.uploadedFiles ∧
    (handleFileUpload s (some f) nowIso
        (UploadOutcome.failure detail)).1.notification =
      some { type := NotifType.error
             message := detail.getD "Upload failed" } ∧
    (handleFileUpload s (some f) nowIso
        (UploadOutcome.failure detail)).1.fileInputValue = "" ∧
    (handleFileUpload s (some f) nowIso
        (UploadOutcome.success fid fn cc)).1.fileInputValue = "" := by
  have hmem : fileExtOf f.name ∈ allowedTypes := by simpa using hext
  refine ⟨?_, ?_, ?_, ?_⟩ <;> simp [handleFileUpload, hmem]

/-- Witness for C10: a failed upload of "notes.txt" with no detail keeps
the empty file list, shows the fallback error text, and clears the file
input, as does the success outcome. -/
theorem upload_failure_atomic_witness :
    (handleFileUpload (initialState "0") (some { name := "notes.txt" }) "t"
        (UploadOutcome.failure none)).1.uploadedFiles = [] ∧
    (handleFileUpload (initialState "0") (some { name := "notes.txt" }) "t"
        (UploadOutcome.failure none)).1.notification =
      some { type := NotifType.error, message := "Upload failed" } ∧
    (handleFileUpload (initialState "0") (some { name := "notes.txt" }) "t"
        (UploadOutcome.failure none)).1.fileInputValue = "" ∧
    (handleFileUpload (initialState "0") (some { name := "notes.txt" }) "t"
        (UploadOutcome.success "id7" "notes.txt" 4)).1.fileInputValue = "" := by
  have h := upload_failure_atomic (initialState "0") { name := "notes.txt" }
    "t" "id7" "notes.txt" 4 none (by decide)
  exact ⟨h.1.trans (by decide), h.2.1.trans (by decide), h.2.2.1, h.2.2.2⟩

/-- C7: a confirmed clear empties the transcript and sets the success
notification, changing nothing else — session id, uploaded files, RAG
toggle and input are untouched — and a send after the clear still posts
under the same session id. -/
theorem clear_empties_transcript_keeps_session
    (s : AppState) (q t1 iso1 t2 iso2 : String) (o : ChatOutcome)
    (hq : jsTrim q ≠ "") (hld : s.loading = false) :
    handleClearChat s true =
      { s with
          messages := [],
          notification := some {
            type := NotifType.success, message := "Chat cleared" } } ∧
    (handleClearChat s true).sessionId = s.sessionId ∧
    (handleClearChat s true).uploadedFiles = s.uploadedFiles ∧
    (handleClearChat s true).useRag = s.useRag ∧
    (handleClearChat s true).input = s.input ∧
    (handleSendMessage { (handleClearChat s true) with input := q }
        t1 iso1 t2 iso2 o).2 =
      some { message := q, session_id := s.sessionId
             use_rag := s.useRag } := by
  have hg : (jsTrim q == "") = false := beq_eq_false_iff_ne.mpr hq
  refine ⟨rfl, rfl, rfl, rfl, rfl, ?_⟩
  cases o <;> simp [handleSendMessage, handleClearChat, hg, hld]

/-- Witness for C7: clearing a one-message session empties the transcript,
keeps the session id, and the next send posts under that same id. -/
theorem clear_empties_transcript_keeps_session_witness :
    handleClearChat
        { initialState "9" with
            messages := [userMessageOf "1" "a" "hello"] } true =
      { initialState "9" with
          messages := [],
          notification := some {
            type := NotifType.success, message := "Chat cleared" } } ∧
    (handleSendMessage
        { (handleClearChat
            { initialState "9" with
                messages := [userMessageOf "1" "a" "hello"] } true)
          with input := "next" }
        "2" "b" "3" "c" (ChatOutcome.success "r" "d" none)).2 =
      some { message := "next", session_id := "session_9"
             use_rag := true } := by
  have h := clear_empties_transcript_keeps_session
    { initialState "9" with messages := [userMessageOf "1" "a" "hello"] }
    "next" "2" "b" "3" "c" (ChatOutcome.success "r" "d" none)
    (by decide) (by decide)
  exact ⟨h.1.trans (by decide), h.2.2.2.2.2.trans (by decide)⟩

/-- Any message present after one user-interface event was already in the
transcript, or is one of the newly built turns: a user turn without
sources, or an assistant turn. -/
theorem step_message_cases {s s' : AppState} (hstep : Step s s') :
    ∀ m ∈ s'.messages, m ∈ s.messages ∨
      (m.role = Role.user ∧ m.sources = none) ∨
      m.role = Role.assistant := by
  cases hstep with
  | send t1 iso1 t2 iso2 o =>
      intro m hm
      cases hg : (jsTrim s.input == "" || s.loading) with
      | true =>
          simp [handleSendMessage, hg] at hm
          exact Or.inl hm
      | false =>
          cases o with
          | success resp ts srcs =>
              simp [handleSendMessage, hg] at hm
              rcases hm with hm | hm | hm
              · exact Or.inl hm
              · exact Or.inr (Or.inl ⟨by rw [hm]; rfl, by rw [hm]; rfl⟩)
              · exact Or.inr (Or.inr (by rw [hm]; rfl))
          | failure detail =>
              simp [handleSendMessage, hg] at hm
              rcases hm with hm | hm | hm
              · exact Or.inl hm
              · exact Or.inr (Or.inl ⟨by rw [hm]; rfl, by rw [hm]; rfl⟩)
              · exact Or.inr (Or.inr (by rw [hm]; rfl))
  | upload file nowIso o =>
      intro m hm
      cases file with
      | none =>
          simp [handleFileUpload] at hm
          exact Or.inl hm
      | some f =>
          cases hg : allowedTypes.contains (fileExtOf f.name) with
          | false =>
              have hmem : fileExtOf f.name ∉ allowedTypes := by simpa using hg
              cases o <;> simp [handleFileUpload, hmem] at hm <;>
                exact Or.inl hm
          | true =>
              have hmem : fileExtOf f.name ∈ allowedTypes := by simpa using hg
              cases o <;> simp [handleFileUpload, hmem] at hm <;>
                exact Or.inl hm
  | clear confirmed =>
      intro m hm
      cases confirmed with
      | false => exact Or.inl hm
      | true => simp [handleClearChat] at hm
  | setInput v => exact fun m hm => Or.inl hm
  | toggleRag => exact fun m hm => Or.inl hm

/-- C6: in every reachable state, every transcript message has role user
or assistant and only assistant turns can carry a sources list (user turns
have none); and every single user-interface event either appends to the
transcript or is the confirmed clear operation. -/
theorem transcript_wellformed_invariant (t0 : String) (s : AppState)
    (h : Reachable t0 s) :
    (∀ m ∈ s.messages,
      (m.role = Role.user ∨ m.role = Role.assistant) ∧
      (m.role = Role.user → m.sources = none)) ∧
    (∀ s' : AppState, Step s s' →
      (∃ tail, s'.messages = s.messages ++ tail) ∨
      s' = handleClearChat s true) := by
  constructor
  · induction h with
    | init =>
        intro m hm
        simp [initialState] at hm
    | step _ hstep ih =>
        intro m hm
        rcases step_message_cases hstep m hm with hmem | hnew | hnew
        · exact ih m hmem
        · exact ⟨Or.inl hnew.1, fun _ => hnew.2⟩
        · refine ⟨Or.inr hnew, fun hu => ?_⟩
          rw [hnew] at hu
          exact Role.noConfusion hu
  · intro s' hstep
    cases hstep with
    | send t1 iso1 t2 iso2 o =>
        cases hg : (jsTrim s.input == "" || s.loading) with
        | true => exact Or.inl ⟨[], by simp [handleSendMessage, hg]⟩
        | false =>
            cases o with
            | success resp ts srcs =>
                exact Or.inl ⟨[userMessageOf t1 iso1 s.input,
                  assistantMessageOf t2 resp ts srcs],
                  by simp [handleSendMessage, hg]⟩
            | failure detail =>
                exact Or.inl ⟨[userMessageOf t1 iso1 s.input,
                  errorMessageOf t2 iso2],
                  by simp [handleSendMessage, hg]⟩
    | upload file nowIso o =>
        refine Or.inl ⟨[], ?_⟩
        cases file with
        | none => simp [handleFileUpload]
        | some f =>
            cases hg : allowedTypes.contains (fileExtOf f.name) with
            | false =>
                have hmem : fileExtOf f.name ∉ allowedTypes := by
                  simpa using hg
                cases o <;> simp [handleFileUpload, hmem]
            | true =>
                have hmem : fileExtOf f.name ∈ allowedTypes := by
                  simpa using hg
                cases o <;> simp [handleFileUpload, hmem]
    | clear confirmed =>
        cases confirmed with
        | false => exact Or.inl ⟨[], by simp [handleClearChat]⟩
        | true => exact Or.inr rfl
    | setInput v => exact Or.inl ⟨[], by simp⟩
    | toggleRag => exact Or.inl ⟨[], by simp⟩

/-- Witness for C6: in the reachable state obtained by typing "hello" and
sending it successfully, the recorded user turn has role user and carries
no sources. -/
theorem transcript_wellformed_invariant_witness :
    ((userMessageOf "1" "a" "hello").role = Role.user ∨
     (userMessageOf "1" "a" "hello").role = Role.assistant) ∧
    (userMessageOf "1" "a" "hello").sources = none := by
  have hreach : Reachable "0"
      (handleSendMessage { initialState "0" with input := "hello" }
        "1" "a" "2" "b" (ChatOutcome.success "hi" "c" none)).1 :=
    Reachable.step
      (Reachable.step Reachable.init
        (Step.setInput (initialState "0") "hello"))
      (Step.send { initialState "0" with input := "hello" }
        "1" "a" "2" "b" (ChatOutcome.success "hi" "c" none))
  have h := (transcript_wellformed_invariant "0" _ hreach).1
    (userMessageOf "1" "a" "hello") (by decide)
  exact ⟨h.1, h.2 rfl⟩

end RagChat
